import Mathlib

/-!
# Verification of the `wait` coordination engine of `expx-dbcopy`

Shallow embedding of `src/cmd/wait.go` (package `cmd`): the bubbletea
`WaitModel` update loop, its three S3 watchers, the cancel-cause context
shared between them, the top-level `Wait` function, and the pure helper
`humanizeBytes`.

Modelling conventions:
* `context.WithCancelCause` is an external stdlib collaborator; it is
  modelled by its documented semantics: the first call to `cancel` sets the
  cause, later calls are no-ops, `context.Cause` returns `context.Canceled`
  when the cause was set with a nil error.
* Go `error` values built by the code are modelled by the inductive `GoErr`
  mirroring each `fmt.Errorf`/`errors.New` site; `errors.Is(err,
  context.Canceled)` is modelled by `GoErr.isCanceled`, which unwraps the
  `%w` chain.
* The S3 client is an external collaborator; a `Store` records the observable
  results of `HeadObject` and `GetObject` per key, and a `WaitObj` value
  records the outcome of one `ObjectExistsWaiter.WaitForOutput` call.
* The bubbletea event loop is modelled as a fold of `step` over a list of
  `Event`s: key messages, `waitMsg` results delivered by watcher commands,
  ticks (carrying the elapsed seconds measured by `time.Since`), window
  resizes, and the deferred execution of a pending `quitCmd` command.
* Durations are exact rationals (seconds); the float arithmetic of
  `humanizeBytes` is modelled by exact integer/rational arithmetic, which
  agrees with the float computation on the inputs considered here.
-/

namespace Dbcopy

/-- Marker/artifact filename extensions, from the `const` block of
`wait.go`. -/
def errorExt : String := ".error"

def okExt : String := ".ok"

def sqlExt : String := ".bz2.crypt"

def startedExt : String := ".started"

def barPad : Int := 8

def barMaxWidth : Int := 64

/-- Go `error` values produced in `wait.go`, one constructor per
`fmt.Errorf` / `errors.New` / external-error site. `%w`-wrapping
constructors keep the wrapped error. -/
inductive GoErr : Type where
  /-- `context.Canceled` (the cause reported after `cancel(nil)`). -/
  | ctxCanceled : GoErr
  /-- the waiter timeout error of `s3.ObjectExistsWaiter.WaitForOutput`. -/
  | exceededWait : GoErr
  /-- `errors.New(string(b))`: a leaf error carrying fetched bytes. -/
  | msg (s : String) : GoErr
  /-- `fmt.Errorf("wait for %q: %w", key, err)` in `waitObject`. -/
  | waitFor (key : String) (e : GoErr) : GoErr
  /-- `fmt.Errorf("remote error:\n%w", err)` in `waitError`. -/
  | remoteError (e : GoErr) : GoErr
  /-- `fmt.Errorf("by user input: %s", m.String())` in `handleKeys`
  (formats the key as a string, wraps nothing). -/
  | byUserInput (k : String) : GoErr
  /-- `fmt.Errorf("heading %q: %w", key, err)` in `size`. -/
  | heading (key : String) (e : GoErr) : GoErr
  /-- `fmt.Errorf("reading %q: %w", key, err)` in `readError`. -/
  | reading (key : String) (e : GoErr) : GoErr
  /-- `fmt.Errorf("canceled: %w", err)` in `Wait`. -/
  | canceledWrap (e : GoErr) : GoErr
  deriving DecidableEq, Repr

/-- `errors.Is(e, context.Canceled)`: true on `context.Canceled` itself and
through every `%w` wrap. -/
def GoErr.isCanceled : GoErr → Bool
  | .ctxCanceled => true
  | .waitFor _ e => e.isCanceled
  | .remoteError e => e.isCanceled
  | .heading _ e => e.isCanceled
  | .reading _ e => e.isCanceled
  | .canceledWrap e => e.isCanceled
  | _ => false

/-- `err.Error()`: the rendered message, mirroring each format string. -/
def GoErr.message : GoErr → String
  | .ctxCanceled => "context canceled"
  | .exceededWait => "exceeded max wait time for ObjectExists waiter"
  | .msg s => s
  | .waitFor key e => "wait for \"" ++ key ++ "\": " ++ e.message
  | .remoteError e => "remote error:\n" ++ e.message
  | .byUserInput k => "by user input: " ++ k
  | .heading key e => "heading \"" ++ key ++ "\": " ++ e.message
  | .reading key e => "reading \"" ++ key ++ "\": " ++ e.message
  | .canceledWrap e => "canceled: " ++ e.message

/-- The observable S3 store: `head k` is the `ContentLength` reported by
`HeadObject` (or its error), `get k` the body bytes fetched by `GetObject`
followed by `io.ReadAll` (or the error of that pair). -/
structure Store : Type where
  head : String → Except GoErr Int
  get : String → Except GoErr String

/-- Outcome of one `s3.NewObjectExistsWaiter(..).WaitForOutput(ctx, key,
waitMax)` call: the object appeared, or the call failed (timeout, transport
error, or context cancellation). -/
inductive WaitObj : Type where
  | found : WaitObj
  | failed (e : GoErr) : WaitObj
  deriving DecidableEq, Repr

/-- The `waitMsg` struct of `wait.go`. -/
structure waitMsg : Type where
  started : Bool
  size : Int
  err : Option GoErr
  deriving DecidableEq, Repr

/-- The mutable state of `WaitModel` that the claims observe. `runningCause`
is the state of the `context.WithCancelCause` pair (`running`, `cancel`):
`none` while not canceled, `some none` after `cancel(nil)` (cause
`context.Canceled`), `some (some e)` after `cancel(e)`. `waitMax` is the
timeout in seconds, `percent` the progress fraction, `width` the progress
bar width. -/
structure WaitModel : Type where
  object : String
  waitMax : ℚ
  percent : ℚ
  runningCause : Option (Option GoErr)
  contentLength : Int
  width : Int
  deriving DecidableEq, Repr

/-- `NewWaitModel(client, bucket, object)`: fresh cancellable context, zero
progress. The client and bucket singletons live in the `Store` parameter of
the watcher functions. -/
def NewWaitModel (object : String) : WaitModel :=
  { object := object, waitMax := 0, percent := 0, runningCause := none,
    contentLength := 0, width := 0 }

/-- `(*WaitModel).WithTimeout`. -/
def WaitModel.WithTimeout (m : WaitModel) (d : ℚ) : WaitModel :=
  { m with waitMax := d }

/-- `self.cancel(e)` on the `context.WithCancelCause` pair: sets the cause
once; every later call is a no-op. -/
def WaitModel.cancelWith (m : WaitModel) (e : Option GoErr) : WaitModel :=
  match m.runningCause with
  | some _ => m
  | none => { m with runningCause := some e }

/-- `context.Cause(m.running)`: `nil` while not canceled,
`context.Canceled` after `cancel(nil)`, else the recorded cause. -/
def contextCause (m : WaitModel) : Option GoErr :=
  match m.runningCause with
  | none => none
  | some none => some .ctxCanceled
  | some (some e) => some e

/-! ## The four derived object keys

Each watcher builds its key as `self.object + ext`; `waitOk` additionally
heads `self.object + sqlExt`. -/

def startedKey (obj : String) : String := obj ++ startedExt

def okKey (obj : String) : String := obj ++ okExt

def errorKey (obj : String) : String := obj ++ errorExt

def artifactKey (obj : String) : String := obj ++ sqlExt

/-! ## Watcher commands

Each watcher command runs in its own task: it calls `waitObject` on its key
and returns one `waitMsg` to the update loop. The embedding gives, for each
watcher, the `waitMsg` it returns as a function of the store and of the
outcome of its existence-wait. -/

/-- `waitObject(ctx, key)`: on waiter failure `e`, the watcher receives
`fmt.Errorf("wait for %q: %w", key, e)`. -/
def waitObjectErr (key : String) : WaitObj → Option GoErr
  | .found => none
  | .failed e => some (.waitFor key e)

/-- `size(ctx, key)`: `HeadObject` then `aws.ToInt64(resp.ContentLength)`;
failures are wrapped as `heading %q`. -/
def sizeOf (store : Store) (key : String) : Except GoErr Int :=
  match store.head key with
  | .error e => .error (.heading key e)
  | .ok n => .ok n

/-- `readError(ctx, key)`: `GetObject` + `io.ReadAll`; on success the body
becomes `errors.New(string(b))`, failures are wrapped as `reading %q`. -/
def readError (store : Store) (key : String) : GoErr :=
  match store.get key with
  | .error e => .reading key e
  | .ok b => .msg b

/-- The message returned by the `waitStarted` command. -/
def waitStartedMsg (obj : String) (r : WaitObj) : waitMsg :=
  match waitObjectErr (startedKey obj) r with
  | some e => { started := false, size := 0, err := some e }
  | none => { started := true, size := 0, err := none }

/-- The message returned by the `waitError` command: once the error marker
exists, its body is fetched and wrapped as `remote error:\n%w`. -/
def waitErrorMsg (store : Store) (obj : String) (r : WaitObj) : waitMsg :=
  match waitObjectErr (errorKey obj) r with
  | some e => { started := false, size := 0, err := some e }
  | none =>
      { started := false, size := 0,
        err := some (.remoteError (readError store (errorKey obj))) }

/-- The message returned by the `waitOk` command: once the ok marker exists,
the artifact `obj + sqlExt` is headed for its size. -/
def waitOkMsg (store : Store) (obj : String) (r : WaitObj) : waitMsg :=
  match waitObjectErr (okKey obj) r with
  | some e => { started := false, size := 0, err := some e }
  | none =>
      match sizeOf store (artifactKey obj) with
      | .error e => { started := false, size := 0, err := some e }
      | .ok n => { started := false, size := n, err := none }

/-! ## The update loop -/

/-- `handleKeys`: Esc, q and Ctrl-C cancel the context with cause
`by user input: <key>` and emit `quitCmd`; the `Bool` records whether
`quitCmd` was emitted. -/
def WaitModel.handleKeys (m : WaitModel) (k : String) : WaitModel × Bool :=
  if k = "ctrl+c" ∨ k = "q" ∨ k = "esc" then
    (m.cancelWith (some (.byUserInput k)), true)
  else (m, false)

/-- `handleWaits`: a watcher error cancels with that cause and emits
`quitCmd`; a started notice only logs; a size message records
`contentLength` and emits `quitCmd` after the ok log line. -/
def WaitModel.handleWaits (m : WaitModel) (w : waitMsg) : WaitModel × Bool :=
  match w.err with
  | some e => (m.cancelWith (some e), true)
  | none =>
      if w.started then (m, false)
      else ({ m with contentLength := w.size }, true)

/-- The `tickMsg` branch of `Update`:
`percent = min(1.0, time.Since(startedAt).Seconds()/waitMax.Seconds())`,
with `elapsed` the seconds measured by `time.Since(self.startedAt)`. -/
def WaitModel.tickUpdate (m : WaitModel) (elapsed : ℚ) : WaitModel :=
  { m with percent := min 1 (elapsed / m.waitMax) }

/-- The `tea.WindowSizeMsg` branch of `Update`. -/
def WaitModel.resize (m : WaitModel) (w : Int) : WaitModel :=
  let x := w - barPad * 2
  { m with width := if barMaxWidth < x then barMaxWidth else x }

/-- One event observed by the bubbletea program: an incoming message
dispatched to `Update`, or the asynchronous execution of a previously
emitted `quitCmd` (which runs `self.cancel(nil)` and returns `tea.Quit`). -/
inductive Event : Type where
  | key (k : String) : Event
  | wmsg (w : waitMsg) : Event
  | tick (elapsed : ℚ) : Event
  | winSize (w : Int) : Event
  | runQuitCmd : Event

/-- The program state around the model: how many emitted `quitCmd` commands
have not run yet, and whether `tea.Quit` already stopped the loop. -/
structure TeaProg : Type where
  model : WaitModel
  pendingQuit : Nat
  done : Bool
  deriving Repr

/-- `tea.NewProgram(model, ...)` before any message. -/
def startProg (m : WaitModel) : TeaProg :=
  { model := m, pendingQuit := 0, done := false }

/-- One step of the event loop: dispatch through `Update` (or run a pending
`quitCmd`); after `tea.Quit` every event is ignored. -/
def step (p : TeaProg) (ev : Event) : TeaProg :=
  if p.done then p
  else
    match ev with
    | .key k =>
        let r := p.model.handleKeys k
        { p with model := r.1,
                 pendingQuit := p.pendingQuit + (if r.2 then 1 else 0) }
    | .wmsg w =>
        let r := p.model.handleWaits w
        { p with model := r.1,
                 pendingQuit := p.pendingQuit + (if r.2 then 1 else 0) }
    | .tick elapsed => { p with model := p.model.tickUpdate elapsed }
    | .winSize w => { p with model := p.model.resize w }
    | .runQuitCmd =>
        if 0 < p.pendingQuit then
          { model := p.model.cancelWith none,
            pendingQuit := p.pendingQuit - 1, done := true }
        else p

/-- The whole event loop: fold `step` over the observed events. -/
def run (p : TeaProg) (evs : List Event) : TeaProg :=
  evs.foldl step p

/-- The tail of `Wait` after `progress.Run()` returns:
`err := context.Cause(model.running)`; a non-`Canceled` cause is returned as
`fmt.Errorf("canceled: %w", err)`; otherwise `model.contentLength` is
printed and `nil` returned. -/
def waitOutcome (m : WaitModel) : Except GoErr Int :=
  match contextCause m with
  | some e => if e.isCanceled then .ok m.contentLength else .error (.canceledWrap e)
  | none => .ok m.contentLength

/-- The lines `Wait` prints on stdout: exactly the content length on the
success path, nothing on the error path. -/
def waitStdout (m : WaitModel) : List String :=
  match waitOutcome m with
  | .ok n => [toString n]
  | .error _ => []

/-! ## Flag defaults (`init` in `wait.go`)

`waitCmd.Flags().DurationVarP(&waitMax, "timeout", "t", 30*time.Minute,
"wait timeout")`: when `-t` is absent, `waitMax` is `30*time.Minute`.
Durations are int64 nanosecond counts. -/

def timeSecond : Nat := 1000000000

def timeMinute : Nat := 60 * timeSecond

def timeHour : Nat := 60 * timeMinute

/-- The default of the `--timeout` flag, from `init`. -/
def defaultWaitMax : Nat := 30 * timeMinute

/-- The `waitMax` value in effect for a run: the flag value when supplied,
else the registered default. -/
def effectiveWaitMax (flag : Option Nat) : Nat :=
  flag.getD defaultWaitMax

/-! ## `humanizeBytes`

The Go function computes with float64 (`math.Log`, `math.Pow`,
`math.Floor`, `fmt.Sprintf`). The embedding computes the same quantities
exactly: `intLog b n = ⌊log n / log b⌋`, and
`v10 = ⌊(n / b^e) * 10 + 0.5⌋` via integer arithmetic
(`⌊x*10 + 1/2⌋ = ⌊(20x + B) / (2B)⌋` for `x = n/B`). `%.1f` of the exact
multiple-of-a-tenth `v` prints its integer part, a dot, and its tenths
digit; `%.0f` rounds half to even. -/

def intLogAux (b : Nat) (n : Nat) : Nat → Nat
  | 0 => 0
  | fuel + 1 => if n < b then 0 else intLogAux b (n / b) fuel + 1

/-- `⌊log n / log b⌋` for `2 ≤ b`, `1 ≤ n`: enough fuel for any int64. -/
def intLog (b n : Nat) : Nat := intLogAux b n 64

/-- `fmt.Sprintf("%.0f", v)` for `v = v10/10` exact: round half to even. -/
def sprintf0f (v10 : Nat) : Nat :=
  let q := v10 / 10
  let r := v10 % 10
  if 5 < r then q + 1
  else if r < 5 then q
  else if q % 2 = 0 then q else q + 1

/-- `humanizeBytes(s, iec)` of `wait.go`. -/
def humanizeBytes (s : Int) (iec : Bool) : String × String :=
  let sizes := if iec then ["B", "KiB", "MiB", "GiB", "TiB", "PiB", "EiB"]
               else ["B", "kB", "MB", "GB", "TB", "PB", "EB"]
  let base : Nat := if iec then 1024 else 1000
  if s < 10 then (toString s, sizes.headD "B")
  else
    let n := s.toNat
    let e := intLog base n
    let suffix := sizes.getD e ""
    let B := base ^ e
    let v10 := (20 * n + B) / (2 * B)
    if v10 < 100 then
      (toString (v10 / 10) ++ "." ++ toString (v10 % 10), suffix)
    else (toString (sprintf0f v10), suffix)

/-- Whether an `Except` result is the success variant (`err == nil` at the
caller). -/
def exceptOk : Except GoErr Int → Bool
  | .ok _ => true
  | .error _ => false

/-- Events that leave the run in its initial undecided state: ticks, window
resizes, keys other than the three quit keys, and the started-watcher's
success notice. -/
def benignEvent : Event → Bool
  | .key k => !(k == "ctrl+c" || k == "q" || k == "esc")
  | .wmsg w => w.started && w.err.isNone
  | .tick _ => true
  | .winSize _ => true
  | .runQuitCmd => false

/-! ## Helper lemmas about the event loop -/

theorem cancelWith_keeps (m : WaitModel) (c e : Option GoErr)
    (hc : m.runningCause = some c) : (m.cancelWith e).runningCause = some c := by
  simp [WaitModel.cancelWith, hc]

theorem step_cause_set (p : TeaProg) (c : Option GoErr) (ev : Event)
    (hc : p.model.runningCause = some c) :
    (step p ev).model.runningCause = some c := by
  by_cases hd : p.done
  · simpa [step, hd] using hc
  · cases ev with
    | key k =>
        simp only [step, hd, Bool.false_eq_true, if_false]
        unfold WaitModel.handleKeys
        split
        · exact cancelWith_keeps _ _ _ hc
        · exact hc
    | wmsg w =>
        simp only [step, hd, Bool.false_eq_true, if_false]
        unfold WaitModel.handleWaits
        cases hw : w.err with
        | some e => exact cancelWith_keeps _ _ _ hc
        | none =>
            by_cases hs : w.started = true
            · simpa [hs] using hc
            · simp only [Bool.not_eq_true] at hs
              simpa [hs] using hc
    | tick t => simpa [step, hd, WaitModel.tickUpdate] using hc
    | winSize w => simpa [step, hd, WaitModel.resize] using hc
    | runQuitCmd =>
        simp only [step, hd, Bool.false_eq_true, if_false]
        split
        · exact cancelWith_keeps _ _ _ hc
        · exact hc

theorem run_cause_set (evs : List Event) (p : TeaProg) (c : Option GoErr)
    (hc : p.model.runningCause = some c) :
    (run p evs).model.runningCause = some c := by
  induction evs generalizing p with
  | nil => exact hc
  | cons ev evs ih => exact ih (step p ev) (step_cause_set p c ev hc)

theorem step_benign (p : TeaProg) (ev : Event) (hev : benignEvent ev = true)
    (hc : p.model.runningCause = none) (hd : p.done = false) :
    (step p ev).model.runningCause = none ∧ (step p ev).done = false ∧
    (step p ev).model.contentLength = p.model.contentLength ∧
    (step p ev).pendingQuit = p.pendingQuit := by
  cases ev with
  | key k =>
      simp only [benignEvent, Bool.not_eq_eq_eq_not, Bool.not_true,
        Bool.or_eq_false_iff, beq_eq_false_iff_ne, ne_eq] at hev
      simp [step, hd, WaitModel.handleKeys, hev.1.1, hev.1.2, hev.2, hc]
  | wmsg w =>
      obtain ⟨s, z, e⟩ := w
      simp only [benignEvent, Bool.and_eq_true, Option.isNone_iff_eq_none] at hev
      obtain ⟨hs, he⟩ := hev
      subst hs he
      simp [step, hd, WaitModel.handleWaits, hc]
  | tick t => simp [step, hd, WaitModel.tickUpdate, hc]
  | winSize w => simp [step, hd, WaitModel.resize, hc]
  | runQuitCmd => simp [benignEvent] at hev

theorem run_benign (evs : List Event) (p : TeaProg)
    (hevs : ∀ ev ∈ evs, benignEvent ev = true)
    (hc : p.model.runningCause = none) (hd : p.done = false) :
    (run p evs).model.runningCause = none ∧ (run p evs).done = false ∧
    (run p evs).model.contentLength = p.model.contentLength ∧
    (run p evs).pendingQuit = p.pendingQuit := by
  induction evs generalizing p with
  | nil => exact ⟨hc, hd, rfl, rfl⟩
  | cons ev evs ih =>
      have hev := hevs ev (List.mem_cons_self ev evs)
      have h := step_benign p ev hev hc hd
      have h2 := ih (step p ev) (fun e he => hevs e (List.mem_cons_of_mem _ he))
        h.1 h.2.1
      have hrun : run p (ev :: evs) = run (step p ev) evs := rfl
      rw [hrun]
      exact ⟨h2.1, h2.2.1, h2.2.2.1.trans h.2.2.1, h2.2.2.2.trans h.2.2.2⟩

theorem run_append (p : TeaProg) (xs ys : List Event) :
    run p (xs ++ ys) = run (run p xs) ys :=
  List.foldl_append step p xs ys

/-! ## Claims -/

/-- C6: for every job name, the four keys the program consumes equal exactly
`name + ".started"` (started-watcher), `name + ".ok"` (ok-watcher),
`name + ".error"` (error-watcher) and `name + ".bz2.crypt"` (artifact size
fetch). -/
theorem C6_derived_keys (name : String) :
    startedKey name = name ++ ".started" ∧ okKey name = name ++ ".ok" ∧
    errorKey name = name ++ ".error" ∧ artifactKey name = name ++ ".bz2.crypt" :=
  ⟨rfl, rfl, rfl, rfl⟩

/-- C7 counterexample: the registered default of the `--timeout` flag is
`30*time.Minute`, exactly half an hour — not approximately one hour. -/
theorem C7_default_half_hour :
    effectiveWaitMax none * 2 = timeHour ∧ effectiveWaitMax none ≠ timeHour := by
  constructor <;> decide

/-- C7 amended: when the wait command's timeout flag is not supplied, the
wait timeout used for the run defaults to 30 minutes (a supplied flag value
is used as given). -/
theorem C7_default_timeout (n : Nat) :
    effectiveWaitMax none = 30 * timeMinute ∧ effectiveWaitMax (some n) = n :=
  ⟨rfl, rfl⟩

/-- C8: `humanizeBytes` in IEC mode maps 5 to `("5", "B")`, 1500 to
`("1.5", "KiB")` and 1073741824 to `("1.0", "GiB")` (round-half-up at one
decimal place, base-1024 boundaries). -/
theorem C8_humanize_bytes :
    humanizeBytes 5 true = ("5", "B") ∧
    humanizeBytes 1500 true = ("1.5", "KiB") ∧
    humanizeBytes 1073741824 true = ("1.0", "GiB") :=
  ⟨rfl, rfl, rfl⟩

/-- C10: every tick update sets the progress fraction to
`min 1 (elapsed / waitMax)`, which never exceeds 1, even once the elapsed
time has passed the configured timeout; the same holds for a tick event
dispatched through the event loop while the program runs. -/
theorem C10_tick_fraction (m : WaitModel) (elapsed : ℚ) (q : Nat) :
    (m.tickUpdate elapsed).percent = min 1 (elapsed / m.waitMax) ∧
    (m.tickUpdate elapsed).percent ≤ 1 ∧
    (step ⟨m, q, false⟩ (.tick elapsed)).model.percent
      = min 1 (elapsed / m.waitMax) :=
  ⟨rfl, min_le_left 1 _, rfl⟩

/-- C5: the run's cancellation cause is set at most once. Once
`runningCause` holds a terminal value, every later step — another watcher
error, the quit path's `cancel(nil)`, any key — leaves it unchanged; and
from the undecided state, a watcher message carrying error `e` makes `e`
the terminal cause. -/
theorem C5_first_result_wins :
    (∀ (p : TeaProg) (c : Option GoErr) (ev : Event),
        p.model.runningCause = some c → (step p ev).model.runningCause = some c) ∧
    (∀ (p : TeaProg) (e : GoErr), p.model.runningCause = none → p.done = false →
        (step p (.wmsg { started := false, size := 0, err := some e })).model.runningCause
          = some (some e)) := by
  constructor
  · exact fun p c ev hc => step_cause_set p c ev hc
  · intro p e hc hd
    simp [step, hd, WaitModel.handleWaits, WaitModel.cancelWith, hc]

/-- Witness for C5 at concrete inputs: a first watcher error becomes the
cause, and a later `runQuitCmd` (the quit path's `cancel(nil)`) does not
change it. -/
theorem C5_first_result_wins_witness :
    (step (startProg ((NewWaitModel "db").WithTimeout 60))
        (.wmsg { started := false, size := 0, err := some .exceededWait })).model.runningCause
      = some (some .exceededWait) ∧
    (step (step (startProg ((NewWaitModel "db").WithTimeout 60))
        (.wmsg { started := false, size := 0, err := some .exceededWait }))
        .runQuitCmd).model.runningCause
      = some (some .exceededWait) := by
  have h1 := C5_first_result_wins.2 (startProg ((NewWaitModel "db").WithTimeout 60))
    .exceededWait rfl rfl
  exact ⟨h1, C5_first_result_wins.1 _ (some .exceededWait) .runQuitCmd h1⟩

theorem run_nil (p : TeaProg) : run p [] = p := rfl

theorem run_cons (p : TeaProg) (ev : Event) (evs : List Event) :
    run p (ev :: evs) = run (step p ev) evs := rfl

-- The effect of a pending `quitCmd` running while the loop is live.
theorem step_runQuitCmd (p : TeaProg) (hd : p.done = false)
    (hq : 0 < p.pendingQuit) :
    step p .runQuitCmd = { model := p.model.cancelWith none,
                           pendingQuit := p.pendingQuit - 1, done := true } := by
  simp [step, hd, hq]

theorem waitStdout_of_ok (m : WaitModel) (n : Int)
    (h : waitOutcome m = .ok n) : waitStdout m = [toString n] := by
  unfold waitStdout
  rw [h]

theorem waitStdout_of_error (m : WaitModel) (e : GoErr)
    (h : waitOutcome m = .error e) : waitStdout m = [] := by
  unfold waitStdout
  rw [h]

-- A model canceled through `quitCmd` (nil cause) makes `Wait` succeed.
theorem waitOutcome_canceled_ok (m : WaitModel) (hc : m.runningCause = some none) :
    waitOutcome m = .ok m.contentLength := by
  simp [waitOutcome, contextCause, hc, GoErr.isCanceled]

-- A model canceled with a non-cancellation cause makes `Wait` fail.
theorem waitOutcome_error (m : WaitModel) (e : GoErr)
    (hc : m.runningCause = some (some e)) (he : e.isCanceled = false) :
    waitOutcome m = .error (.canceledWrap e) := by
  simp [waitOutcome, contextCause, hc, he]

-- Benign events, then a clean size message, benign events, then the
-- deferred `quitCmd`: the run ends canceled-with-nil-cause holding the size.
theorem run_ok_scenario (p0 : TeaProg) (pre mid : List Event) (sz : Int)
    (h0c : p0.model.runningCause = none) (h0d : p0.done = false)
    (hpre : ∀ ev ∈ pre, benignEvent ev = true)
    (hmid : ∀ ev ∈ mid, benignEvent ev = true) :
    (run p0 (pre ++ .wmsg { started := false, size := sz, err := none }
        :: mid ++ [.runQuitCmd])).model.runningCause = some none ∧
    (run p0 (pre ++ .wmsg { started := false, size := sz, err := none }
        :: mid ++ [.runQuitCmd])).model.contentLength = sz := by
  simp only [run_append, run_cons, run_nil]
  obtain ⟨h1c, h1d, h1len, h1q⟩ := run_benign pre p0 hpre h0c h0d
  have h2c : (step (run p0 pre) (.wmsg { started := false, size := sz, err := none })).model.runningCause
      = none := by
    simp [step, h1d, WaitModel.handleWaits, h1c]
  have h2d : (step (run p0 pre) (.wmsg { started := false, size := sz, err := none })).done
      = false := by
    simp [step, h1d]
  have h2len : (step (run p0 pre) (.wmsg { started := false, size := sz, err := none })).model.contentLength
      = sz := by
    simp [step, h1d, WaitModel.handleWaits]
  have h2q : (step (run p0 pre) (.wmsg { started := false, size := sz, err := none })).pendingQuit
      = (run p0 pre).pendingQuit + 1 := by
    simp [step, h1d, WaitModel.handleWaits]
  obtain ⟨h3c, h3d, h3len, h3q⟩ := run_benign mid _ hmid h2c h2d
  have hq : 0 < (run (step (run p0 pre)
      (.wmsg { started := false, size := sz, err := none })) mid).pendingQuit := by
    rw [h3q, h2q]; exact Nat.succ_pos _
  rw [step_runQuitCmd _ h3d hq]
  constructor
  · simp [WaitModel.cancelWith, h3c]
  · simp [WaitModel.cancelWith, h3c, h3len, h2len]

-- Benign events, then a watcher message carrying error `e`: the cause is
-- fixed to `e`, whatever events follow.
theorem run_error_scenario (p0 : TeaProg) (pre ts : List Event) (e : GoErr)
    (h0c : p0.model.runningCause = none) (h0d : p0.done = false)
    (hpre : ∀ ev ∈ pre, benignEvent ev = true) :
    (run p0 (pre ++ .wmsg { started := false, size := 0, err := some e }
        :: ts)).model.runningCause = some (some e) := by
  simp only [run_append, run_cons]
  obtain ⟨h1c, h1d, _, _⟩ := run_benign pre p0 hpre h0c h0d
  apply run_cause_set
  simp [step, h1d, WaitModel.handleWaits, WaitModel.cancelWith, h1c]

-- Benign events, then a quit key: the cause is fixed to `by user input`.
theorem run_quit_scenario (p0 : TeaProg) (pre ts : List Event) (k : String)
    (hk : k = "ctrl+c" ∨ k = "q" ∨ k = "esc")
    (h0c : p0.model.runningCause = none) (h0d : p0.done = false)
    (hpre : ∀ ev ∈ pre, benignEvent ev = true) :
    (run p0 (pre ++ .key k :: ts)).model.runningCause
      = some (some (.byUserInput k)) := by
  simp only [run_append, run_cons]
  obtain ⟨h1c, h1d, _, _⟩ := run_benign pre p0 hpre h0c h0d
  apply run_cause_set
  simp [step, h1d, WaitModel.handleKeys, hk, WaitModel.cancelWith, h1c]

/-- C1: when the ok marker appears before the error marker and before the
timeout — i.e. the events before the ok-watcher's message, and between that
message and the execution of its `quitCmd`, are all benign — `Wait` returns
the `ContentLength` that `HeadObject` reports for `name + ".bz2.crypt"`,
returns no error, and prints exactly that byte count as the sole stdout
line. -/
theorem C1_ok_first (store : Store) (name : String) (d : ℚ) (sz : Int)
    (pre mid : List Event)
    (hpre : ∀ ev ∈ pre, benignEvent ev = true)
    (hmid : ∀ ev ∈ mid, benignEvent ev = true)
    (hhead : store.head (artifactKey name) = .ok sz) :
    waitOutcome (run (startProg ((NewWaitModel name).WithTimeout d))
        (pre ++ .wmsg (waitOkMsg store name .found) :: mid ++ [.runQuitCmd])).model
      = .ok sz ∧
    waitStdout (run (startProg ((NewWaitModel name).WithTimeout d))
        (pre ++ .wmsg (waitOkMsg store name .found) :: mid ++ [.runQuitCmd])).model
      = [toString sz] := by
  have hmsg : waitOkMsg store name .found
      = { started := false, size := sz, err := none } := by
    simp [waitOkMsg, waitObjectErr, sizeOf, hhead]
  rw [hmsg]
  obtain ⟨hc, hlen⟩ := run_ok_scenario (startProg ((NewWaitModel name).WithTimeout d))
    pre mid sz rfl rfl hpre hmid
  have hout := waitOutcome_canceled_ok _ hc
  rw [hlen] at hout
  exact ⟨hout, waitStdout_of_ok _ _ hout⟩

/-- Witness for C1 at concrete inputs: one tick, then the ok-watcher's
message for a store whose artifact head reports 42 bytes. -/
theorem C1_ok_first_witness :
    waitOutcome (run (startProg ((NewWaitModel "db").WithTimeout 60))
        ([Event.tick 1]
          ++ .wmsg (waitOkMsg ⟨fun _ => .ok 42, fun _ => .ok ""⟩ "db" .found)
          :: [] ++ [.runQuitCmd])).model = .ok 42 ∧
    waitStdout (run (startProg ((NewWaitModel "db").WithTimeout 60))
        ([Event.tick 1]
          ++ .wmsg (waitOkMsg ⟨fun _ => .ok 42, fun _ => .ok ""⟩ "db" .found)
          :: [] ++ [.runQuitCmd])).model = [toString (42 : Int)] :=
  C1_ok_first ⟨fun _ => .ok 42, fun _ => .ok ""⟩ "db" 60 42 [Event.tick 1] []
    (by intro ev hev; rw [List.mem_singleton] at hev; subst hev; rfl)
    (fun ev hev => absurd hev (List.not_mem_nil ev)) rfl

/-- C2: when the error marker appears before the ok marker (benign events,
then the error-watcher's message), `Wait` returns an error whose message
contains the full body fetched by `GetObject` from `name + ".error"`, and
no later event — including the ok-watcher's eventual success message and
the quit command — changes that outcome. -/
theorem C2_error_first (store : Store) (name : String) (d : ℚ) (body : String)
    (pre ts : List Event)
    (hpre : ∀ ev ∈ pre, benignEvent ev = true)
    (hget : store.get (errorKey name) = .ok body) :
    waitOutcome (run (startProg ((NewWaitModel name).WithTimeout d))
        (pre ++ .wmsg (waitErrorMsg store name .found) :: ts)).model
      = .error (.canceledWrap (.remoteError (.msg body))) ∧
    ∃ s t, (GoErr.canceledWrap (.remoteError (.msg body))).message
      = s ++ (t ++ body) := by
  have hmsg : waitErrorMsg store name .found
      = { started := false, size := 0,
          err := some (.remoteError (.msg body)) } := by
    simp [waitErrorMsg, waitObjectErr, readError, hget]
  rw [hmsg]
  have hc := run_error_scenario (startProg ((NewWaitModel name).WithTimeout d))
    pre ts (.remoteError (.msg body)) rfl rfl hpre
  exact ⟨waitOutcome_error _ _ hc rfl, "canceled: ", "remote error:\n", rfl⟩

/-- Witness for C2 at concrete inputs; the tail of the run even contains the
ok-watcher's success message and it changes nothing. -/
theorem C2_error_first_witness :
    waitOutcome (run (startProg ((NewWaitModel "db").WithTimeout 60))
        ([] ++ .wmsg (waitErrorMsg ⟨fun _ => .ok 7, fun _ => .ok "pg_dump failed"⟩
            "db" .found)
          :: [.runQuitCmd,
              .wmsg (waitOkMsg ⟨fun _ => .ok 7, fun _ => .ok "pg_dump failed"⟩
                "db" .found)])).model
      = .error (.canceledWrap (.remoteError (.msg "pg_dump failed"))) ∧
    ∃ s t, (GoErr.canceledWrap (.remoteError (.msg "pg_dump failed"))).message
      = s ++ (t ++ "pg_dump failed") :=
  C2_error_first ⟨fun _ => .ok 7, fun _ => .ok "pg_dump failed"⟩ "db" 60
    "pg_dump failed" []
    [.runQuitCmd,
     .wmsg (waitOkMsg ⟨fun _ => .ok 7, fun _ => .ok "pg_dump failed"⟩ "db" .found)]
    (fun ev hev => absurd hev (List.not_mem_nil ev)) rfl

/-- C3: when neither marker appears before the timeout, the first watcher
message delivered is one of the three wait failures wrapping the waiter's
exceeded-max-wait-time error, and `Wait` returns that timeout error — not a
success, and not the remote-failure (error-marker body) form. -/
theorem C3_timeout (store : Store) (name : String) (d : ℚ) (key : String)
    (w : waitMsg) (pre ts : List Event)
    (hpre : ∀ ev ∈ pre, benignEvent ev = true)
    (hw : (w = waitStartedMsg name (.failed .exceededWait) ∧ key = startedKey name)
        ∨ (w = waitErrorMsg store name (.failed .exceededWait) ∧ key = errorKey name)
        ∨ (w = waitOkMsg store name (.failed .exceededWait) ∧ key = okKey name)) :
    waitOutcome (run (startProg ((NewWaitModel name).WithTimeout d))
        (pre ++ .wmsg w :: ts)).model
      = .error (.canceledWrap (.waitFor key .exceededWait)) ∧
    (∀ n : Int, waitOutcome (run (startProg ((NewWaitModel name).WithTimeout d))
        (pre ++ .wmsg w :: ts)).model ≠ .ok n) ∧
    (∀ e : GoErr, waitOutcome (run (startProg ((NewWaitModel name).WithTimeout d))
        (pre ++ .wmsg w :: ts)).model
      ≠ .error (.canceledWrap (.remoteError e))) := by
  have hmsg : waitMsg.mk false 0 (some (.waitFor key .exceededWait)) = w := by
    rcases hw with ⟨hw, hkey⟩ | ⟨hw, hkey⟩ | ⟨hw, hkey⟩ <;> subst hw <;>
      subst hkey <;> rfl
  rw [← hmsg]
  have hc := run_error_scenario (startProg ((NewWaitModel name).WithTimeout d))
    pre ts (.waitFor key .exceededWait) rfl rfl hpre
  have hout := waitOutcome_error _ _ hc rfl
  refine ⟨hout, fun n => ?_, fun e => ?_⟩ <;> simp [hout]

/-- Witness for C3 at concrete inputs: the ok-watcher's existence-wait times
out first. -/
theorem C3_timeout_witness :
    waitOutcome (run (startProg ((NewWaitModel "db").WithTimeout 60))
        ([Event.tick 1]
          ++ .wmsg (waitOkMsg ⟨fun _ => .ok 7, fun _ => .ok ""⟩ "db"
              (.failed .exceededWait)) :: [.runQuitCmd])).model
      = .error (.canceledWrap (.waitFor (okKey "db") .exceededWait)) ∧
    (∀ n : Int, waitOutcome (run (startProg ((NewWaitModel "db").WithTimeout 60))
        ([Event.tick 1]
          ++ .wmsg (waitOkMsg ⟨fun _ => .ok 7, fun _ => .ok ""⟩ "db"
              (.failed .exceededWait)) :: [.runQuitCmd])).model ≠ .ok n) ∧
    (∀ e : GoErr, waitOutcome (run (startProg ((NewWaitModel "db").WithTimeout 60))
        ([Event.tick 1]
          ++ .wmsg (waitOkMsg ⟨fun _ => .ok 7, fun _ => .ok ""⟩ "db"
              (.failed .exceededWait)) :: [.runQuitCmd])).model
      ≠ .error (.canceledWrap (.remoteError e))) :=
  C3_timeout ⟨fun _ => .ok 7, fun _ => .ok ""⟩ "db" 60 (okKey "db")
    (waitOkMsg ⟨fun _ => .ok 7, fun _ => .ok ""⟩ "db" (.failed .exceededWait))
    [Event.tick 1] [.runQuitCmd]
    (by intro ev hev; rw [List.mem_singleton] at hev; subst hev; rfl)
    (Or.inr (Or.inr ⟨rfl, rfl⟩))

/-- C4 counterexample: the claim says an explicit user quit (Esc, q,
Ctrl-C) is not reported as an error at the top level. At the concrete run
in which the user presses `q` and the emitted `quitCmd` then executes,
`Wait` returns the error `canceled: by user input: q` — because
`handleKeys` cancels with a `by user input` cause before `quitCmd` runs its
`cancel(nil)`, and `Wait` only suppresses causes satisfying
`errors.Is(err, context.Canceled)`. -/
theorem C4_cex_user_quit_errors :
    waitOutcome (run (startProg ((NewWaitModel "db").WithTimeout 60))
        [.key "q", .runQuitCmd]).model
      = .error (.canceledWrap (.byUserInput "q")) ∧
    exceptOk (waitOutcome (run (startProg ((NewWaitModel "db").WithTimeout 60))
        [.key "q", .runQuitCmd]).model) = false :=
  ⟨rfl, rfl⟩

/-- C4 amended: a run terminated by an explicit quit key (Esc, q, Ctrl-C)
before any terminal marker outcome IS reported as an error at the top
level: `Wait` returns `canceled: by user input: <key>`. The cancellation
remains internally distinguishable from a clean success: the recorded
cause is `byUserInput`, not the nil cause of a plain cancellation. -/
theorem C4_user_quit (name : String) (d : ℚ) (k : String) (pre ts : List Event)
    (hk : k = "ctrl+c" ∨ k = "q" ∨ k = "esc")
    (hpre : ∀ ev ∈ pre, benignEvent ev = true) :
    waitOutcome (run (startProg ((NewWaitModel name).WithTimeout d))
        (pre ++ .key k :: ts)).model
      = .error (.canceledWrap (.byUserInput k)) ∧
    (run (startProg ((NewWaitModel name).WithTimeout d))
        (pre ++ .key k :: ts)).model.runningCause
      = some (some (.byUserInput k)) ∧
    some (some (GoErr.byUserInput k)) ≠ some (none : Option GoErr) ∧
    (GoErr.canceledWrap (.byUserInput k)).message
      = "canceled: by user input: " ++ k := by
  have hc := run_quit_scenario (startProg ((NewWaitModel name).WithTimeout d))
    pre ts k hk rfl rfl hpre
  exact ⟨waitOutcome_error _ _ hc rfl, hc, by simp, rfl⟩

/-- Witness for the amended C4 at concrete inputs. -/
theorem C4_user_quit_witness :
    waitOutcome (run (startProg ((NewWaitModel "db").WithTimeout 60))
        ([] ++ .key "q" :: [.runQuitCmd])).model
      = .error (.canceledWrap (.byUserInput "q")) ∧
    (run (startProg ((NewWaitModel "db").WithTimeout 60))
        ([] ++ .key "q" :: [.runQuitCmd])).model.runningCause
      = some (some (.byUserInput "q")) ∧
    some (some (GoErr.byUserInput "q")) ≠ some (none : Option GoErr) ∧
    (GoErr.canceledWrap (.byUserInput "q")).message
      = "canceled: by user input: " ++ "q" :=
  C4_user_quit "db" 60 "q" [] [.runQuitCmd] (Or.inr (Or.inl rfl))
    (fun ev hev => absurd hev (List.not_mem_nil ev))

end Dbcopy
